import Mathlib

/-!
Verification of the dialogue-orchestration core of the VoiceHunte repository
(`app/agent`: `nodes/intent.py`, `nodes/tools_crm.py`, `nodes/tools_menu.py`,
`nodes/respond.py`, `graph.py`, `state.py`, `models.py`).

Texts are modelled as `String` / `List Char`.  The Python regular expressions
of `nodes/intent.py` are fixed-shape patterns; each is embedded as an explicit
left-to-right scanner with the same leftmost-match semantics.  Character
classes (`\d`, `\w`, `\s`, case folding) are modelled over the alphabets the
source actually mentions: ASCII, the Cyrillic block and the accented Latin
letters occurring in the patterns, which is exactly the scope the source's
keyword tables exercise.
-/

/-- ASCII decimal digit (`\d` in the source's patterns, restricted to ASCII). -/
def isDigit (c : Char) : Bool :=
  48 ≤ c.toNat && c.toNat ≤ 57

/-- Numeric value of an ASCII digit. -/
def digitVal (c : Char) : Nat :=
  c.toNat - 48

/-- `int(...)` on a list of decimal digit characters. -/
def natOfDigits (cs : List Char) : Nat :=
  cs.foldl (fun a c => 10 * a + digitVal c) 0

/-- ASCII letter. -/
def isAsciiLetter (c : Char) : Bool :=
  (65 ≤ c.toNat && c.toNat ≤ 90) || (97 ≤ c.toNat && c.toNat ≤ 122)

/-- The accented Latin letters appearing in the source's Slovak patterns
(`ÁÄČĎÉÍĽĹŇÓÔŔŠŤÚÝŽ` and their lower-case forms). -/
def isAccentedLatin (c : Char) : Bool :=
  c ∈ ['Á', 'Ä', 'Č', 'Ď', 'É', 'Í', 'Ľ', 'Ĺ', 'Ň', 'Ó', 'Ô', 'Ŕ', 'Š',
       'Ť', 'Ú', 'Ý', 'Ž',
       'á', 'ä', 'č', 'ď', 'é', 'í', 'ľ', 'ĺ', 'ň', 'ó', 'ô', 'ŕ', 'š',
       'ť', 'ú', 'ý', 'ž']

/-- Model of Python `str.lower()` on the alphabets used by the source:
ASCII `A`-`Z`, the Cyrillic block `А`-`Я` with `Ё`/`І`/`Ї`/`Є`/`Ґ`, and the
accented Latin capitals of the Slovak patterns. -/
def pyLower (c : Char) : Char :=
  if 65 ≤ c.toNat ∧ c.toNat ≤ 90 then Char.ofNat (c.toNat + 32)
  else if 0x410 ≤ c.toNat ∧ c.toNat ≤ 0x42F then Char.ofNat (c.toNat + 0x20)
  else
    match c with
    | 'Ё' => 'ё'
    | 'І' => 'і'
    | 'Ї' => 'ї'
    | 'Є' => 'є'
    | 'Ґ' => 'ґ'
    | 'Á' => 'á'
    | 'Ä' => 'ä'
    | 'Č' => 'č'
    | 'Ď' => 'ď'
    | 'É' => 'é'
    | 'Í' => 'í'
    | 'Ľ' => 'ľ'
    | 'Ĺ' => 'ĺ'
    | 'Ň' => 'ň'
    | 'Ó' => 'ó'
    | 'Ô' => 'ô'
    | 'Ŕ' => 'ŕ'
    | 'Š' => 'š'
    | 'Ť' => 'ť'
    | 'Ú' => 'ú'
    | 'Ý' => 'ý'
    | 'Ž' => 'ž'
    | c => c

/-- Word character for `\b` boundaries (`re` word chars over the modelled
alphabets: ASCII alphanumerics, `_`, Cyrillic and accented Latin letters). -/
def isWordChar (c : Char) : Bool :=
  isDigit c || isAsciiLetter c || c == '_' ||
    (0x400 ≤ c.toNat && c.toNat ≤ 0x4FF) || isAccentedLatin c

/-- Whitespace for `\s` / `str.strip()` (ASCII whitespace). -/
def isSpaceChar (c : Char) : Bool :=
  c == ' ' || c == '\t' || c == '\n' || c == '\r' ||
    c == Char.ofNat 11 || c == Char.ofNat 12

/-- Exact (case-sensitive) list-prefix test. -/
def litHead : List Char → List Char → Bool
  | [], _ => true
  | _ :: _, [] => false
  | p :: ps, c :: cs => p == c && litHead ps cs

/-- Unanchored substring containment (semantics of `re.search` for a literal
alternative): the needle occurs at some position of the haystack. -/
def containsLit (pat : List Char) : List Char → Bool
  | [] => litHead pat []
  | c :: rest => litHead pat (c :: rest) || containsLit pat rest

/-- Case-insensitive literal match at the head of the text; the pattern is
written lower-case and each text character is folded with `pyLower`.  Returns
the remainder of the text after the literal. -/
def ciLitRest : List Char → List Char → Option (List Char)
  | [], rest => some rest
  | _ :: _, [] => none
  | p :: ps, c :: cs => if pyLower c == p then ciLitRest ps cs else none

/-- Python `" ".join` / `", ".join`. -/
def joinWith (sep : String) : List String → String
  | [] => ""
  | [x] => x
  | x :: y :: xs => x ++ sep ++ joinWith sep (y :: xs)

/-- The six intents of `app/agent/models.py`. -/
inductive Intent where
  | create_reservation
  | update_reservation
  | cancel_reservation
  | menu_question
  | hours_info
  | generic
deriving DecidableEq, Repr

/-- One keyword bucket of `_fallback_intent`: does any of the lower-case
literal alternatives occur in the (already lowered) text? -/
def bucketHit (pats : List String) (lowered : List Char) : Bool :=
  pats.any (fun p => containsLit p.data lowered)

def cancelKeywords : List String := ["cancel", "отмен", "скас", "zruš"]

def updateKeywords : List String :=
  ["change", "update", "move", "измен", "перен", "змін", "zmeni", "upravi"]

def createKeywords : List String :=
  ["book", "reserve", "reservation", "заброн", "брон", "rezerv", "rezer"]

def menuKeywords : List String :=
  ["menu", "меню", "страв", "jedlo", "jedálny", "ponuka"]

def hoursKeywords : List String :=
  ["hours", "open", "close", "работ", "відкрит", "otvár", "hodin", "час"]

/-- `_fallback_intent` of `app/agent/nodes/intent.py`: lower the text, then
test the keyword buckets in the fixed order cancel, update, create, menu,
hours; the first bucket that matches wins, otherwise `generic`. -/
def fallback_intent (text : String) : Intent :=
  let lowered := text.data.map pyLower
  if bucketHit cancelKeywords lowered then .cancel_reservation
  else if bucketHit updateKeywords lowered then .update_reservation
  else if bucketHit createKeywords lowered then .create_reservation
  else if bucketHit menuKeywords lowered then .menu_question
  else if bucketHit hoursKeywords lowered then .hours_info
  else .generic

/-- `detect_language` of `app/agent/nodes/intent.py`: Cyrillic present means
`ru`, refined to `uk` when a lower-case Ukrainian letter (і, ї, є, ґ) is
present; Slovak diacritics (either case) mean `sk`; otherwise `en`. -/
def detect_language (text : String) : String :=
  if text.data.any (fun c =>
      (0x430 ≤ c.toNat && c.toNat ≤ 0x44F) ||
      (0x410 ≤ c.toNat && c.toNat ≤ 0x42F) || c == 'ё' || c == 'Ё') then
    if text.data.any (fun c => c == 'і' || c == 'ї' || c == 'є' || c == 'ґ') then
      "uk"
    else "ru"
  else if text.data.any isAccentedLatin then "sk"
  else "en"

/-- Naive datetime value: `datetime.datetime` restricted to the fields the
source ever sets (`year, month, day, hour, minute`). -/
structure DateTime where
  year : Nat
  month : Nat
  day : Nat
  hour : Nat
  minute : Nat
deriving DecidableEq, Repr

def isLeapYear (y : Nat) : Bool :=
  (y % 4 == 0 && y % 100 != 0) || y % 400 == 0

def daysInMonth (y m : Nat) : Nat :=
  if m == 2 then (if isLeapYear y then 29 else 28)
  else if m == 4 || m == 6 || m == 9 || m == 11 then 30
  else 31

/-- The calendar validation performed by `datetime.datetime(...)` and
`datetime.fromisoformat`: a constructor call with these components raises
`ValueError` exactly when this is `false`. -/
def validDateTime (y m d h mi : Nat) : Bool :=
  1 ≤ y && y ≤ 9999 && 1 ≤ m && m ≤ 12 && 1 ≤ d && d ≤ daysInMonth y m &&
    h ≤ 23 && mi ≤ 59

/-- `datetime.datetime(y, m, d, h, mi)` with the `ValueError` case mapped to
`none` (the source catches it and returns `None`). -/
def mkDateTime (y m d h mi : Nat) : Option DateTime :=
  if validDateTime y m d h mi then some ⟨y, m, d, h, mi⟩ else none

/-- `datetime.fromisoformat` on a 16-character `YYYY-MM-DDTHH:MM` string:
parse the components and validate the calendar values; any shape or calendar
violation raises (`none`). -/
def fromisoformat (s : List Char) : Option DateTime :=
  match s with
  | [y1, y2, y3, y4, '-', m1, m2, '-', d1, d2, 'T', h1, h2, ':', n1, n2] =>
    if [y1, y2, y3, y4, m1, m2, d1, d2, h1, h2, n1, n2].all isDigit then
      mkDateTime (natOfDigits [y1, y2, y3, y4]) (natOfDigits [m1, m2])
        (natOfDigits [d1, d2]) (natOfDigits [h1, h2]) (natOfDigits [n1, n2])
    else none
  | _ => none

/-- Does the pattern `\d{4}-\d{2}-\d{2}[ T]\d{2}:\d{2}` match at the head of
the text?  If so, return the 16-character matched slice (`group(0)`). -/
def isoShapeAt (t : List Char) : Option (List Char) :=
  match t with
  | y1 :: y2 :: y3 :: y4 :: '-' :: m1 :: m2 :: '-' :: d1 :: d2 :: sep ::
      h1 :: h2 :: ':' :: n1 :: n2 :: _ =>
    if [y1, y2, y3, y4, m1, m2, d1, d2, h1, h2, n1, n2].all isDigit &&
        (sep == ' ' || sep == 'T') then
      some [y1, y2, y3, y4, '-', m1, m2, '-', d1, d2, sep, h1, h2, ':', n1, n2]
    else none
  | _ => none

/-- Leftmost match of the ISO-like pattern (`re.search` semantics). -/
def firstIsoSlice : List Char → Option (List Char)
  | [] => none
  | c :: rest =>
    match isoShapeAt (c :: rest) with
    | some s => some s
    | none => firstIsoSlice rest

/-- Does `(\d{2})[./](\d{2})[./](\d{4})` match at the head?  Returns the
captured `(day, month, year)`. -/
def dateShapeAt (t : List Char) : Option (Nat × Nat × Nat) :=
  match t with
  | d1 :: d2 :: s1 :: m1 :: m2 :: s2 :: y1 :: y2 :: y3 :: y4 :: _ =>
    if [d1, d2, m1, m2, y1, y2, y3, y4].all isDigit &&
        (s1 == '.' || s1 == '/') && (s2 == '.' || s2 == '/') then
      some (natOfDigits [d1, d2], natOfDigits [m1, m2],
            natOfDigits [y1, y2, y3, y4])
    else none
  | _ => none

/-- Leftmost match of the `DD[./]MM[./]YYYY` pattern. -/
def firstDateMatch : List Char → Option (Nat × Nat × Nat)
  | [] => none
  | c :: rest =>
    match dateShapeAt (c :: rest) with
    | some r => some r
    | none => firstDateMatch rest

/-- Does `(\d{1,2}):(\d{2})` match at the head (greedy: two hour digits are
preferred over one)?  Returns the captured `(hour, minute)`. -/
def timeShapeAt (t : List Char) : Option (Nat × Nat) :=
  match t with
  | c1 :: c2 :: ':' :: c3 :: c4 :: _ =>
    if isDigit c1 && isDigit c2 && isDigit c3 && isDigit c4 then
      some (natOfDigits [c1, c2], natOfDigits [c3, c4])
    else
      match t with
      | e1 :: ':' :: e3 :: e4 :: _ =>
        if isDigit e1 && isDigit e3 && isDigit e4 then
          some (digitVal e1, natOfDigits [e3, e4])
        else none
      | _ => none
  | c1 :: ':' :: c3 :: c4 :: _ =>
    if isDigit c1 && isDigit c3 && isDigit c4 then
      some (digitVal c1, natOfDigits [c3, c4])
    else none
  | _ => none

/-- Leftmost match of the `H:MM` / `HH:MM` time pattern. -/
def firstTimeMatch : List Char → Option (Nat × Nat)
  | [] => none
  | c :: rest =>
    match timeShapeAt (c :: rest) with
    | some r => some r
    | none => firstTimeMatch rest

/-- `_parse_datetime` of `app/agent/nodes/intent.py`: the first ISO-like
match, if any, is handed to `fromisoformat` with its space replaced by `T`
(`ValueError` giving `None`); otherwise the first `DD[./]MM[./]YYYY` date and
the first `H:MM`/`HH:MM` time are combined via the `datetime` constructor,
again with `ValueError` giving `None`; with either part absent, `None`. -/
def parse_datetime (text : String) : Option DateTime :=
  match firstIsoSlice text.data with
  | some s => fromisoformat (s.map (fun c => if c == ' ' then 'T' else c))
  | none =>
    match firstDateMatch text.data, firstTimeMatch text.data with
    | some (d, m, y), some (h, mi) => mkDateTime y m d h mi
    | _, _ => none

def peopleNouns : List String :=
  ["people", "persons", "guests", "ppl", "чел", "человек", "людей",
   "osôb", "osob", "osoby"]

/-- Does one of the people-count noun alternatives of
`(\d+)\s*(people|persons|guests|ppl|чел|человек|людей|os[ôo]b|osoby)` match
(case-insensitively) at the head of the text? -/
def peopleNounAt (t : List Char) : Bool :=
  peopleNouns.any (fun p => (ciLitRest p.data t).isSome)

/-- Leftmost match of the `(\d+)\s*(noun)` people pattern: a maximal digit
run, optional whitespace, then a noun alternative; the captured digits are
the value. -/
def peopleNounScan : List Char → Option Nat
  | [] => none
  | c :: rest =>
    if isDigit c then
      let ds := (c :: rest).takeWhile isDigit
      let after := ((c :: rest).drop ds.length).dropWhile isSpaceChar
      if peopleNounAt after then some (natOfDigits ds) else peopleNounScan rest
    else peopleNounScan rest

/-- One position of the `\b(\d{1,2})\b` standalone-number fallback: `prev` is
the character just before this position (`none` at the start of the text).
Greedily try two digits, then one, each bounded by word boundaries. -/
def standaloneScan (prev : Option Char) : List Char → Option Nat
  | [] => none
  | c :: rest =>
    if isDigit c && (match prev with
                     | none => true
                     | some p => !isWordChar p) then
      match rest with
      | [] => some (digitVal c)
      | c2 :: rest2 =>
        if isDigit c2 then
          match rest2 with
          | [] => some (natOfDigits [c, c2])
          | c3 :: _ =>
            if !isWordChar c3 then some (natOfDigits [c, c2])
            else standaloneScan (some c) rest
        else if !isWordChar c2 then some (digitVal c)
        else standaloneScan (some c) rest
    else standaloneScan (some c) rest

/-- `_extract_people` of `app/agent/nodes/intent.py`: a number followed by a
people-count noun, else the first standalone one-or-two-digit number. -/
def extract_people (text : String) : Option Nat :=
  match peopleNounScan text.data with
  | some n => some n
  | none => standaloneScan none text.data

/-- Capture class `[A-Za-zÁÄČĎÉÍĽĹŇÓÔŔŠŤÚÝŽ\- ]` under `re.IGNORECASE`. -/
def latinNameChar (c : Char) : Bool :=
  isAsciiLetter c || isAccentedLatin c || c == '-' || c == ' '

/-- Capture class `[А-Яа-яёЁ\- ]`. -/
def cyrNameChar (c : Char) : Bool :=
  (0x410 ≤ c.toNat && c.toNat ≤ 0x44F) || c == 'ё' || c == 'Ё' ||
    c == '-' || c == ' '

/-- Leftmost match of one name pattern `lit([cls]+)`: scan for a position
where the case-insensitive literal matches and the following class run is
non-empty; the run is the captured group. -/
def patScan (pat : List Char) (cls : Char → Bool) : List Char → Option (List Char)
  | [] => none
  | c :: rest =>
    match ciLitRest pat (c :: rest) with
    | some rem =>
      let cap := rem.takeWhile cls
      if cap.isEmpty then patScan pat cls rest else some cap
    | none => patScan pat cls rest

/-- Python `str.strip()` on the captured group. -/
def pyStrip (s : List Char) : List Char :=
  ((s.dropWhile isSpaceChar).reverse.dropWhile isSpaceChar).reverse

/-- `_extract_name` of `app/agent/nodes/intent.py`: the self-introduction
patterns tried in source order, first match anywhere wins, captured group
stripped.  `vol[aá]m sa` is expanded into its two deterministic literals. -/
def extract_name (text : String) : Option String :=
  let t := text.data
  let r :=
    (patScan "my name is ".data latinNameChar t).orElse (fun _ =>
    (patScan "i am ".data latinNameChar t).orElse (fun _ =>
    (patScan "меня зовут ".data cyrNameChar t).orElse (fun _ =>
    (patScan "я ".data cyrNameChar t).orElse (fun _ =>
    (patScan "мене звати ".data cyrNameChar t).orElse (fun _ =>
    (patScan "volam sa ".data latinNameChar t).orElse (fun _ =>
    patScan "volám sa ".data latinNameChar t))))))
  r.map (fun cap => String.mk (pyStrip cap))

def ridTokens : List String := ["id", "#", "брон", "rezerv"]

/-- `_extract_reservation_id` of `app/agent/nodes/intent.py`: leftmost match
of `(?:id|#|брон|rezerv)\s*(\d{1,6})` (case-insensitive): one of the tokens,
optional whitespace, then at most six digits of a digit run. -/
def ridScan : List Char → Option Nat
  | [] => none
  | c :: rest =>
    let here := ridTokens.firstM (fun tok =>
      match ciLitRest tok.data (c :: rest) with
      | some rem =>
        let ds := (rem.dropWhile isSpaceChar).takeWhile isDigit
        if ds.isEmpty then none else some (natOfDigits (ds.take 6))
      | none => none)
    match here with
    | some n => some n
    | none => ridScan rest

def extract_reservation_id (text : String) : Option Nat :=
  ridScan text.data

/-- `ReservationRequest` of `app/agent/models.py`: four optional fields; the
pydantic model constrains `people ≥ 1` at construction time. -/
structure ReservationRequest where
  name : Option String := none
  datetime : Option DateTime := none
  people : Option Nat := none
  reservation_id : Option Nat := none
deriving DecidableEq, Repr

/-- Pydantic validation of `ReservationRequest(...)`: constructing with
`people = 0` raises a `ValidationError` (`ge=1`); every other combination of
the extractor outputs is accepted. -/
def mkReservationRequest (name : Option String) (dt : Option DateTime)
    (people : Option Nat) (rid : Option Nat) :
    Except String ReservationRequest :=
  match people with
  | some 0 => .error "people: input should be greater than or equal to 1"
  | _ => .ok ⟨name, dt, people, rid⟩

/-- Python truthiness of an optional string (`None` and `""` are falsy). -/
def truthyStr : Option String → Bool
  | none => false
  | some s => s != ""

/-- Python truthiness of an optional integer (`None` and `0` are falsy). -/
def truthyNat : Option Nat → Bool
  | none => false
  | some n => n != 0

/-- `IntentExtraction` of `app/agent/nodes/intent.py`. -/
structure IntentExtraction where
  intent : Intent
  entities : Option ReservationRequest := none
  language : String
deriving DecidableEq, Repr

/-- `_regex_fallback_extract` of `app/agent/nodes/intent.py`: detect the
language (`language or detect_language(text)`, Python truthiness), build a
`ReservationRequest` from the four extractors (pydantic validation may
raise, modelled as `Except.error`), collapse it to `None` when
`any([name, datetime, people, reservation_id])` is false (truthiness), and
pair it with the fallback intent. -/
def regex_fallback_extract (text : String) (language : Option String) :
    Except String IntentExtraction :=
  let detected :=
    match language with
    | some l => if l == "" then detect_language text else l
    | none => detect_language text
  match mkReservationRequest (extract_name text) (parse_datetime text)
      (extract_people text) (extract_reservation_id text) with
  | .error e => .error e
  | .ok ent =>
    let ent' :=
      if truthyStr ent.name || ent.datetime.isSome || truthyNat ent.people ||
          truthyNat ent.reservation_id then
        some ent
      else none
    .ok ⟨fallback_intent text, ent', detected⟩

/-- `HistoryMessage` of `app/agent/state.py`. -/
structure HistoryMessage where
  role : String
  text : String
deriving DecidableEq, Repr

/-- `ReservationRecord` of `app/crm/base.py`. -/
structure ReservationRecord where
  reservation_id : Nat
  name : String
  datetime : DateTime
  people : Nat
  phone : Option String := none
  notes : Option String := none
  status : String
deriving DecidableEq, Repr

/-- `ReservationCreate` of `app/crm/base.py` (all three required fields are
supplied by the dispatcher; `phone`/`notes` are never set by it). -/
structure ReservationCreate where
  name : String
  datetime : DateTime
  people : Nat
  phone : Option String := none
  notes : Option String := none
deriving DecidableEq, Repr

/-- `ReservationUpdate` of `app/crm/base.py`. -/
structure ReservationUpdate where
  name : Option String := none
  datetime : Option DateTime := none
  people : Option Nat := none
  phone : Option String := none
  notes : Option String := none
deriving DecidableEq, Repr

/-- `MenuItem`: one retrieved menu entry as consumed by the composer
(`item.get("name")`, `item.get("price")` on a dict). -/
structure MenuItem where
  name : Option String := none
  price : Option String := none
deriving DecidableEq, Repr

/-- The payload shapes that actually flow through `ToolResult.payload`
(a `dict[str, Any]` in the source): the empty dict of the error cases, a
dumped reservation record, or the `{"items": [...]}` menu context. -/
inductive Payload where
  | emptyMap
  | reservation (record : ReservationRecord)
  | menu (items : List MenuItem)
deriving DecidableEq, Repr

/-- `ToolResult` of `app/agent/models.py`. -/
structure ToolResult where
  tool : String
  payload : Payload
  error : Option String := none
deriving DecidableEq, Repr

/-- `AgentResponse` of `app/agent/models.py`. -/
structure AgentResponse where
  answer_text : String
  actions : List String := []
  language : String
deriving DecidableEq, Repr

/-- `CallState` of `app/agent/state.py`. -/
structure CallState where
  call_id : String
  language : Option String := none
  history : List HistoryMessage := []
  last_user_text : Option String := none
  intent : Option Intent := none
  entities : Option ReservationRequest := none
  tool_results : List ToolResult := []
  final_answer : Option AgentResponse := none
deriving DecidableEq, Repr

/-- `CallState.last_user_message`: `last_user_text` when truthy, otherwise
the most recent user-role history entry's text. -/
def last_user_message (s : CallState) : Option String :=
  match s.last_user_text with
  | some t =>
    if t != "" then some t
    else (s.history.reverse.find? (fun m => m.role == "user")).map (·.text)
  | none => (s.history.reverse.find? (fun m => m.role == "user")).map (·.text)

/-- The reservation-store collaborator behind `CRMPostgresMock`
(`app/crm/mock_db.py` talks to an external database; the three operations
are modelled as opaque functions, as in the `crm_adapter` parameter). -/
structure CrmAdapter where
  create : ReservationCreate → ReservationRecord
  update : Nat → ReservationUpdate → ReservationRecord
  cancel : Nat → ReservationRecord

/-- One recorded invocation of the reservation store. -/
inductive CrmCall where
  | create (payload : ReservationCreate)
  | update (rid : Nat) (payload : ReservationUpdate)
  | cancel (rid : Nat)
deriving DecidableEq, Repr

/-- `handle_crm_tools` of `app/agent/nodes/tools_crm.py`, instrumented with
the list of store invocations it performs.  `entities = state.entities or
ReservationRequest()`; the create guard is Python truthiness of
`entities.name and entities.datetime and entities.people`, the update and
cancel guards are truthiness of `entities.reservation_id`. -/
def handle_crm_tools_log (A : CrmAdapter) (s : CallState) :
    CallState × List CrmCall :=
  let entities := s.entities.getD {}
  match s.intent with
  | some .create_reservation =>
    match entities.name, entities.datetime, entities.people with
    | some n, some dt, some (p + 1) =>
      if n == "" then
        ({s with tool_results := s.tool_results ++
            [⟨"crm_create", .emptyMap, some "missing_required_fields"⟩]}, [])
      else
        let payload : ReservationCreate := ⟨n, dt, p + 1, none, none⟩
        ({s with tool_results := s.tool_results ++
            [⟨"crm_create", .reservation (A.create payload), none⟩]},
         [.create payload])
    | _, _, _ =>
      ({s with tool_results := s.tool_results ++
          [⟨"crm_create", .emptyMap, some "missing_required_fields"⟩]}, [])
  | some .update_reservation =>
    match entities.reservation_id with
    | some (r + 1) =>
      let payload : ReservationUpdate :=
        ⟨entities.name, entities.datetime, entities.people, none, none⟩
      ({s with tool_results := s.tool_results ++
          [⟨"crm_update", .reservation (A.update (r + 1) payload), none⟩]},
       [.update (r + 1) payload])
    | _ =>
      ({s with tool_results := s.tool_results ++
          [⟨"crm_update", .emptyMap, some "missing_reservation_id"⟩]}, [])
  | some .cancel_reservation =>
    match entities.reservation_id with
    | some (r + 1) =>
      ({s with tool_results := s.tool_results ++
          [⟨"crm_cancel", .reservation (A.cancel (r + 1)), none⟩]},
       [.cancel (r + 1)])
    | _ =>
      ({s with tool_results := s.tool_results ++
          [⟨"crm_cancel", .emptyMap, some "missing_reservation_id"⟩]}, [])
  | _ => (s, [])

def handle_crm_tools (A : CrmAdapter) (s : CallState) : CallState :=
  (handle_crm_tools_log A s).1

/-- `state.language or "en"` / `language or "en"` (Python truthiness). -/
def langOrEn : Option String → String
  | none => "en"
  | some l => if l == "" then "en" else l

/-- `handle_menu_tools` of `app/agent/nodes/tools_menu.py`, with the menu
retriever (`app/rag/menu_retriever.py`, an external vector-search call)
abstracted as a function. -/
def handle_menu_tools (menu : String → String → List MenuItem)
    (s : CallState) : CallState :=
  let query := ((last_user_message s).bind
    (fun q => if q == "" then none else some q)).getD ""
  let items := menu query (langOrEn s.language)
  {s with tool_results := s.tool_results ++ [⟨"menu_context", .menu items, none⟩]}

/-- One per-language phrase table of `_LANGUAGE_PROMPTS`
(`app/agent/nodes/respond.py`). -/
structure LangPrompts where
  missing_name : String
  missing_datetime : String
  missing_people : String
  missing_reservation_id : String
  generic : String
  hours : String
  menu_empty : String
  created : String
  updated : String
  cancelled : String
deriving DecidableEq, Repr

def enPrompts : LangPrompts where
  missing_name := "Could you share the name for the reservation?"
  missing_datetime := "What date and time should we book?"
  missing_people := "How many people will be attending?"
  missing_reservation_id := "Please provide the reservation ID."
  generic := "How can I help you today?"
  hours := "We are open daily from 10:00 to 22:00."
  menu_empty := "I can help with the menu. What are you interested in?"
  created := "Reservation created."
  updated := "Reservation updated."
  cancelled := "Reservation cancelled."

def ruPrompts : LangPrompts where
  missing_name := "Подскажите, на какое имя оформить бронь?"
  missing_datetime := "На какую дату и время оформить бронь?"
  missing_people := "Сколько человек будет?"
  missing_reservation_id := "Назовите номер брони, пожалуйста."
  generic := "Чем могу помочь?"
  hours := "Мы работаем ежедневно с 10:00 до 22:00."
  menu_empty := "Могу рассказать про меню. Что вас интересует?"
  created := "Бронь создана."
  updated := "Бронь обновлена."
  cancelled := "Бронь отменена."

def ukPrompts : LangPrompts where
  missing_name := "Підкажіть, на чиє ім\u0027я оформити бронювання?"
  missing_datetime := "На яку дату та час зробити бронювання?"
  missing_people := "Скільки людей буде?"
  missing_reservation_id := "Повідомте номер бронювання, будь ласка."
  generic := "Чим можу допомогти?"
  hours := "Ми працюємо щодня з 10:00 до 22:00."
  menu_empty := "Можу підказати по меню. Що саме цікавить?"
  created := "Бронювання створено."
  updated := "Бронювання оновлено."
  cancelled := "Бронювання скасовано."

def skPrompts : LangPrompts where
  missing_name := "Na aké meno mám rezerváciu vytvoriť?"
  missing_datetime := "Na aký dátum a čas to má byť?"
  missing_people := "Pre koľko osôb bude rezervácia?"
  missing_reservation_id := "Prosím, uveďte ID rezervácie."
  generic := "Ako vám môžem pomôcť?"
  hours := "Máme otvorené denne od 10:00 do 22:00."
  menu_empty := "Môžem pomôcť s menu. Čo vás zaujíma?"
  created := "Rezervácia bola vytvorená."
  updated := "Rezervácia bola upravená."
  cancelled := "Rezervácia bola zrušená."

/-- `_prompts`: `_LANGUAGE_PROMPTS.get(language, _LANGUAGE_PROMPTS["en"])`. -/
def promptsFor (language : String) : LangPrompts :=
  if language == "en" then enPrompts
  else if language == "ru" then ruPrompts
  else if language == "uk" then ukPrompts
  else if language == "sk" then skPrompts
  else enPrompts

/-- Truthiness of `entities` / `entities.name` in the composer's
`not entities or not entities.name` checks. -/
def entName (e : Option ReservationRequest) : Bool :=
  match e with
  | none => false
  | some e => truthyStr e.name

def entDatetime (e : Option ReservationRequest) : Bool :=
  match e with
  | none => false
  | some e => e.datetime.isSome

def entPeople (e : Option ReservationRequest) : Bool :=
  match e with
  | none => false
  | some e => truthyNat e.people

def entRid (e : Option ReservationRequest) : Bool :=
  match e with
  | none => false
  | some e => truthyNat e.reservation_id

/-- The `missing_fields` list of the composer's `create_reservation` branch:
one clarifying phrase per falsy field, in the fixed order name, datetime,
people. -/
def missingFields (e : Option ReservationRequest) (p : LangPrompts) :
    List String :=
  (if entName e then [] else [p.missing_name]) ++
  (if entDatetime e then [] else [p.missing_datetime]) ++
  (if entPeople e then [] else [p.missing_people])

/-- The first `menu_context` tool result's items
(`next((r.payload.get("items", []) for r in tool_results if r.tool ==
"menu_context"), [])`). -/
def firstMenuItems (trs : List ToolResult) : List MenuItem :=
  match trs.find? (fun r => r.tool == "menu_context") with
  | some r =>
    match r.payload with
    | .menu items => items
    | _ => []
  | none => []

/-- The menu summary: `", ".join(f"{name} ({price})")` over items with a
truthy name (a missing price renders as Python `None`). -/
def menuSummary (items : List MenuItem) : String :=
  joinWith ", " (items.filterMap (fun it =>
    match it.name with
    | some n =>
      if n == "" then none
      else some (n ++ " (" ++ (it.price.getD "None") ++ ")")
    | none => none))

/-- `respond` of `app/agent/nodes/respond.py`: pure phrase composition from
intent, entities, tool results and language; sets `final_answer` and leaves
every other field unchanged. -/
def respond (s : CallState) : CallState :=
  let language := langOrEn s.language
  let p := promptsFor language
  let answer_actions : String × List String :=
    match s.intent with
    | some .hours_info => (p.hours, [])
    | some .menu_question =>
      let items := firstMenuItems s.tool_results
      if items.isEmpty then (p.menu_empty, [])
      else
        let summarized := menuSummary items
        (if summarized == "" then p.menu_empty else summarized, [])
    | some .create_reservation =>
      let missing := missingFields s.entities p
      if missing.isEmpty then (p.created, [])
      else (joinWith " " missing, ["clarify"])
    | some .update_reservation =>
      if entRid s.entities then (p.updated, [])
      else (p.missing_reservation_id, ["clarify"])
    | some .cancel_reservation =>
      if entRid s.entities then (p.cancelled, [])
      else (p.missing_reservation_id, ["clarify"])
    | _ => (p.generic, [])
  {s with final_answer := some (AgentResponse.mk answer_actions.1 answer_actions.2 language)}

/-- The external collaborators wired into the driver: the intent classifier
(`classify_intent_and_entities`, whose LLM path is remote and whose contract
is `text, language hint ↦ IntentExtraction`), the reservation store and the
menu retriever. -/
structure Collaborators where
  classify : String → Option String → IntentExtraction
  crm : CrmAdapter
  menu : String → String → List MenuItem

/-- `_ensure_history` of `app/agent/graph.py`: append `last_user_text` as a
user turn when it is truthy and no user-role entry anywhere in history
carries the same text. -/
def ensure_history (s : CallState) : CallState :=
  match s.last_user_text with
  | some t =>
    if t != "" &&
        !(s.history.any (fun m => m.text == t && m.role == "user")) then
      {s with history := s.history ++ [⟨"user", t⟩]}
    else s
  | none => s

/-- The user-role entries of a history, in order. -/
def user_messages (h : List HistoryMessage) : List HistoryMessage :=
  h.filter (fun m => m.role == "user")

/-- The composed reply's actions (`call_state.final_answer.actions`; the
loop body always sets `final_answer` before reading it). -/
def answer_actions (s : CallState) : List String :=
  match s.final_answer with
  | some r => r.actions
  | none => []

/-- The composed reply's text (`call_state.final_answer.answer_text`). -/
def answer_text (s : CallState) : String :=
  match s.final_answer with
  | some r => r.answer_text
  | none => ""

/-- The driver's tool-dispatch conditional: CRM tools for the three
reservation intents, menu tools for `menu_question`, no dispatch otherwise. -/
def dispatch_tools (C : Collaborators) (i : Intent) (s : CallState) :
    CallState :=
  if i = .create_reservation ∨ i = .update_reservation ∨
      i = .cancel_reservation then
    handle_crm_tools C.crm s
  else if i = .menu_question then
    handle_menu_tools C.menu s
  else s

/-- One iteration of the driver's loop (`run_agent`, `app/agent/graph.py`):
set `last_user_text`, classify, overwrite intent/entities/language, reset
`tool_results`, dispatch to the CRM or menu tools when the intent warrants
it, compose the reply and append it as an assistant turn. -/
def step_turn (C : Collaborators) (s : CallState) (m : HistoryMessage) :
    CallState :=
  let s1 := {s with last_user_text := some m.text}
  let ex := C.classify m.text s1.language
  let s2 := {s1 with intent := some ex.intent, entities := ex.entities,
                     language := some ex.language, tool_results := []}
  let s4 := respond (dispatch_tools C ex.intent s2)
  {s4 with history := s4.history ++ [⟨"assistant", answer_text s4⟩]}

/-- The driver's `for message in user_messages[start_index:]` loop with its
early `break` when the composed reply's actions do not include `clarify`. -/
def loop_turns (C : Collaborators) : CallState → List HistoryMessage → CallState
  | s, [] => s
  | s, m :: rest =>
    let s' := step_turn C s m
    if "clarify" ∈ answer_actions s' then loop_turns C s' rest else s'

/-- `run_agent` of `app/agent/graph.py`: fold the pending utterance into
history, return the state unchanged when there are no user messages, and
otherwise process at most the last `maxTurns` user messages. -/
def run_agent (C : Collaborators) (maxTurns : Nat) (s : CallState) :
    CallState :=
  let s0 := ensure_history s
  let users := user_messages s0.history
  if users.isEmpty then s0
  else loop_turns C s0 (users.drop (users.length - maxTurns))

/-- Does some position of the text start a `YYYY-MM-DD[ T]HH:MM`-shaped
substring whose calendar values are valid, i.e. a substring that
`datetime.fromisoformat` would accept?  (Used to state that `_parse_datetime`
can ignore such a substring when an earlier, invalid-valued one exists.) -/
def hasValidIso : List Char → Bool
  | [] => false
  | c :: rest =>
    (match isoShapeAt (c :: rest) with
     | some s =>
       (fromisoformat (s.map (fun x => if x == ' ' then 'T' else x))).isSome
     | none => false) ||
    hasValidIso rest

/-- The most recent user-role entry of a history. -/
def lastUserEntry (h : List HistoryMessage) : Option HistoryMessage :=
  h.reverse.find? (fun m => m.role == "user")

/-- A fixed reservation record, for exercising the dispatcher with a stub
store. -/
def stubRecord : ReservationRecord :=
  ⟨1, "x", ⟨2025, 1, 1, 10, 0⟩, 2, none, none, "active"⟩

/-- A stub reservation store returning `stubRecord` everywhere. -/
def stubAdapter : CrmAdapter :=
  ⟨fun _ => stubRecord, fun _ _ => stubRecord, fun _ => stubRecord⟩

/-- A stub classifier that always asks to create a reservation and never
extracts entities, so every composed reply is a clarifying question. -/
def clarifyingCollab : Collaborators :=
  ⟨fun _ _ => ⟨.create_reservation, none, "en"⟩, stubAdapter, fun _ _ => []⟩

/-- A call state with a create intent and no entities. -/
def createNoEntities : CallState :=
  {call_id := "c2", intent := some .create_reservation}

/-- A history whose text "hi" recurs as the pending utterance although "bye"
is the most recent user entry. -/
def dupOldState : CallState :=
  {call_id := "c4",
   history := [⟨"user", "hi"⟩, ⟨"assistant", "ok"⟩, ⟨"user", "bye"⟩],
   last_user_text := some "hi"}

/-- A state whose pending utterance "b" is new. -/
def freshTextState : CallState :=
  {call_id := "w4", history := [⟨"user", "a"⟩], last_user_text := some "b"}

/-- A create-intent state whose entities hold the empty-string name (legal
for the pydantic model), a datetime, and no party size. -/
def emptyNameState : CallState :=
  {call_id := "c7", language := some "en",
   intent := some .create_reservation,
   entities := some ⟨some "", some ⟨2025, 5, 10, 18, 30⟩, none, none⟩}

/-- A create-intent state with name and datetime present and the party size
missing. -/
def aliceNoPeopleState : CallState :=
  {call_id := "w7", language := some "en",
   intent := some Intent.create_reservation,
   entities := some (ReservationRequest.mk (some "Alice")
     (some (DateTime.mk 2025 5 10 18 30)) none none)}

/-- A state with no user utterances (assistant-only history). -/
def assistantOnlyState : CallState :=
  {call_id := "c9", history := [⟨"assistant", "hello"⟩],
   language := some "en"}

/-- A state with five queued user utterances and no pending text. -/
def fiveUserState : CallState :=
  {call_id := "c6",
   history := [⟨"user", "u1"⟩, ⟨"user", "u2"⟩, ⟨"user", "u3"⟩,
               ⟨"user", "u4"⟩, ⟨"user", "u5"⟩]}

/-- C1: a text whose lowered form contains a cancel keyword together with a
booking keyword is classified by the deterministic fallback as
`cancel_reservation` and never as `create_reservation`: the cancel bucket is
tested first and the first match wins. -/
theorem cancel_keyword_beats_booking_keyword (text : String)
    (hc : bucketHit cancelKeywords (text.data.map pyLower) = true)
    (hb : bucketHit createKeywords (text.data.map pyLower) = true) :
    fallback_intent text = Intent.cancel_reservation ∧
      fallback_intent text ≠ Intent.create_reservation := by
  simp only [fallback_intent]
  rw [hc]
  simp

/-- Witness for C1 at the utterance "Cancel my booking": both keyword
buckets fire and the fallback classifies it as a cancellation. -/
theorem cancel_keyword_beats_booking_keyword_witness :
    bucketHit cancelKeywords (("Cancel my booking" : String).data.map pyLower) = true ∧
    bucketHit createKeywords (("Cancel my booking" : String).data.map pyLower) = true ∧
    fallback_intent "Cancel my booking" = Intent.cancel_reservation := by
  refine ⟨by decide, by decide, ?_⟩
  exact (cancel_keyword_beats_booking_keyword "Cancel my booking"
    (by decide) (by decide)).1

/-- C3 (code bug evidence): on the input text "0" the standalone-digit
fallback of `_extract_people` extracts `0`, and the `ReservationRequest`
construction inside `_regex_fallback_extract` rejects it (`people ≥ 1`), so
the extraction raises a `ValidationError` instead of returning an
`IntentExtraction` — contradicting the never-raise contract. -/
theorem regex_fallback_extract_raises_on_zero :
    extract_people "0" = some 0 ∧
    regex_fallback_extract "0" none =
      Except.error "people: input should be greater than or equal to 1" := by
  exact ⟨rfl, rfl⟩

/-- C5 (counterexample): this text contains a calendar-valid
`YYYY-MM-DD HH:MM` substring (`2025-01-02 10:00`), yet `_parse_datetime`
returns `None` because the leftmost ISO-shaped substring
(`9999-99-99 99:99`) has invalid calendar values — so the claim that a text
containing a valid ISO substring always parses to that substring's datetime
is false. -/
theorem parse_datetime_ignores_later_valid_iso :
    hasValidIso ("9999-99-99 99:99 and 2025-01-02 10:00" : String).data = true ∧
    fromisoformat ("2025-01-02T10:00" : String).data =
      some (DateTime.mk 2025 1 2 10 0) ∧
    parse_datetime "9999-99-99 99:99 and 2025-01-02 10:00" = none := by
  exact ⟨rfl, rfl, rfl⟩

/-- C8 (counterexample): on the text "id 000" the reservation-id extractor
resolves the non-null value `0`, yet the composite entity object collapses
to `None` because Python's `any` treats `0` as falsy — so "entities is null
iff all four fields are absent" is false. -/
theorem entities_null_despite_resolved_field :
    extract_reservation_id "id 000" = some 0 ∧
    extract_name "id 000" = none ∧
    parse_datetime "id 000" = none ∧
    extract_people "id 000" = none ∧
    regex_fallback_extract "id 000" none =
      Except.ok (IntentExtraction.mk Intent.generic none "en") := by
  exact ⟨rfl, rfl, rfl, rfl, rfl⟩

/-- C4 (counterexample): the pending text "hi" equals an older user entry
but not the most recent one ("bye"); the claim says it is still appended,
yet `_ensure_history` leaves the state unchanged — its duplicate guard is
global, not positional. -/
theorem ensure_history_drops_old_duplicate :
    dupOldState.last_user_text = some "hi" ∧
    (lastUserEntry dupOldState.history).map (fun m => m.text) = some "bye" ∧
    ("hi" : String) ≠ "bye" ∧
    ensure_history dupOldState = dupOldState := by
  exact ⟨rfl, rfl, by decide, rfl⟩

/-- C7 (counterexample): with a non-null (but empty-string) name, a non-null
datetime and a null party size, the composer emits the missing-name question
in addition to the how-many-people question — Python truthiness treats the
empty name as missing — so the answer is not exactly one clarifying
phrase. -/
theorem respond_two_phrases_on_empty_name :
    emptyNameState.entities = some (ReservationRequest.mk (some "")
      (some (DateTime.mk 2025 5 10 18 30)) none none) ∧
    (respond emptyNameState).final_answer = some (AgentResponse.mk
      ("Could you share the name for the reservation? How many people will be attending?")
      ["clarify"] "en") ∧
    ("Could you share the name for the reservation? How many people will be attending?" : String) ≠
      "How many people will be attending?" := by
  exact ⟨rfl, rfl, by decide⟩

/-- C4 (amended): for a non-empty pending utterance, `_ensure_history`
appends it as a user turn if and only if no user-role entry anywhere in the
history carries the same text; in particular an utterance equal to an older,
non-most-recent user entry is dropped, not appended. -/
theorem ensure_history_global_guard (s : CallState) (t : String)
    (hlt : s.last_user_text = some t) (hne : t ≠ "") :
    ((∀ m ∈ s.history, m.role = "user" → m.text ≠ t) →
       ensure_history s = {s with history := s.history ++ [⟨"user", t⟩]}) ∧
    ((∃ m ∈ s.history, m.role = "user" ∧ m.text = t) →
       ensure_history s = s) := by
  constructor
  · intro h
    have hany : s.history.any (fun m => m.text == t && m.role == "user") = false := by
      rw [List.any_eq_false]
      intro m hm
      simp only [Bool.and_eq_true, beq_iff_eq, not_and]
      intro hmt hrole
      exact h m hm hrole hmt
    simp [ensure_history, hlt, hne, hany]
  · intro h
    obtain ⟨m, hm, hrole, htext⟩ := h
    have hany : s.history.any (fun m => m.text == t && m.role == "user") = true := by
      rw [List.any_eq_true]
      exact ⟨m, hm, by simp [htext, hrole]⟩
    simp [ensure_history, hlt, hany]

/-- Witness for C4 (amended): a fresh text "b" not present among the user
entries is appended. -/
theorem ensure_history_global_guard_witness :
    ensure_history freshTextState =
      {freshTextState with
        history := freshTextState.history ++ [⟨"user", "b"⟩]} := by
  exact (ensure_history_global_guard freshTextState "b" rfl (by decide)).1
    (by decide)

/-- C9: with no user-role history entries and a null-or-empty pending text,
the driver is a no-op: it returns the state with history, intent, entities,
tool results, language and final answer exactly as they were. -/
theorem run_agent_noop_without_users (C : Collaborators) (k : Nat)
    (s : CallState) (hu : user_messages s.history = [])
    (hl : s.last_user_text = none ∨ s.last_user_text = some "") :
    run_agent C k s = s := by
  have hens : ensure_history s = s := by
    rcases hl with h | h <;> simp [ensure_history, h]
  unfold run_agent
  rw [hens]
  simp [hu]

/-- Witness for C9: an assistant-only history with no pending text is
returned unchanged. -/
theorem run_agent_noop_without_users_witness :
    run_agent clarifyingCollab 2 assistantOnlyState = assistantOnlyState := by
  exact run_agent_noop_without_users clarifyingCollab 2 assistantOnlyState
    rfl (Or.inl rfl)

/-- C2: for a `create_reservation` state the dispatcher invokes the
reservation store only when name, datetime and party size are all non-null,
and whenever one of them is null (or the entities object itself is null) it
performs no store call and appends exactly one `crm_create` tool result with
an empty payload and the `missing_required_fields` error. -/
theorem crm_create_guard (A : CrmAdapter) (s : CallState)
    (hintent : s.intent = some Intent.create_reservation) :
    ((handle_crm_tools_log A s).2 ≠ [] →
       ∃ e, s.entities = some e ∧ e.name ≠ none ∧ e.datetime ≠ none ∧
         e.people ≠ none) ∧
    ((s.entities = none ∨ ∃ e, s.entities = some e ∧
        (e.name = none ∨ e.datetime = none ∨ e.people = none)) →
      (handle_crm_tools_log A s).1 =
        {s with tool_results := s.tool_results ++
          [⟨"crm_create", Payload.emptyMap, some "missing_required_fields"⟩]} ∧
      (handle_crm_tools_log A s).2 = []) := by
  rcases hE : s.entities with _ | ⟨name, dt, people, rid⟩
  · refine ⟨fun hcalls => absurd ?_ hcalls, fun _ => ⟨?_, ?_⟩⟩ <;>
      simp [handle_crm_tools_log, hintent, hE]
  · rcases name with _ | n
    · refine ⟨fun hcalls => absurd ?_ hcalls, fun _ => ⟨?_, ?_⟩⟩ <;>
        simp [handle_crm_tools_log, hintent, hE]
    · rcases dt with _ | d
      · refine ⟨fun hcalls => absurd ?_ hcalls, fun _ => ⟨?_, ?_⟩⟩ <;>
          simp [handle_crm_tools_log, hintent, hE]
      · rcases people with _ | p
        · refine ⟨fun hcalls => absurd ?_ hcalls, fun _ => ⟨?_, ?_⟩⟩ <;>
            simp [handle_crm_tools_log, hintent, hE]
        · rcases p with _ | p
          · -- people = some 0 is falsy: still the missing branch
            refine ⟨fun hcalls => absurd ?_ hcalls, fun _ => ⟨?_, ?_⟩⟩ <;>
              simp [handle_crm_tools_log, hintent, hE]
          · -- name, datetime, people all present (people ≥ 1)
            constructor
            · intro _
              exact ⟨_, rfl, by simp, by simp, by simp⟩
            · rintro (h | ⟨e, he, h⟩)
              · simp at h
              · simp only [Option.some.injEq] at he
                subst he
                simp at h

/-- Witness for C2: with a stub store and a create-intent state with no
entities, the dispatcher performs zero store calls and appends exactly the
`missing_required_fields` tool result. -/
theorem crm_create_guard_witness :
    (handle_crm_tools_log stubAdapter createNoEntities).2 = [] ∧
    (handle_crm_tools_log stubAdapter createNoEntities).1.tool_results =
      [⟨"crm_create", Payload.emptyMap, some "missing_required_fields"⟩] := by
  have h := (crm_create_guard stubAdapter createNoEntities rfl).2 (Or.inl rfl)
  exact ⟨h.2, by rw [h.1]; rfl⟩

/-- C5 (amended): `_parse_datetime` is governed by the leftmost ISO-shaped
match: when the first `YYYY-MM-DD[ T]HH:MM`-shaped substring exists, the
result is exactly `fromisoformat` applied to that substring (its direct
parse when the calendar values are valid, `None` otherwise, a later valid
substring notwithstanding); when no such substring exists, the first
`DD[./]MM[./]YYYY` date and first `H:MM`/`HH:MM` time are combined through
the validating `datetime` constructor, and either part being absent yields
`None`. -/
theorem parse_datetime_first_match (text : String) :
    (∀ s : List Char, firstIsoSlice text.data = some s →
       parse_datetime text =
         fromisoformat (s.map (fun c => if c == ' ' then 'T' else c))) ∧
    (∀ d m y h mi : Nat, firstIsoSlice text.data = none →
       firstDateMatch text.data = some (d, m, y) →
       firstTimeMatch text.data = some (h, mi) →
       parse_datetime text = mkDateTime y m d h mi) ∧
    (firstIsoSlice text.data = none →
      (firstDateMatch text.data = none ∨ firstTimeMatch text.data = none) →
      parse_datetime text = none) := by
  refine ⟨?_, ?_, ?_⟩
  · intro s hs
    unfold parse_datetime
    rw [hs]
  · intro d m y h mi hiso hd ht
    unfold parse_datetime
    rw [hiso, hd, ht]
  · intro hiso hdt
    unfold parse_datetime
    rw [hiso]
    rcases hdt with h | h
    · rw [h]
    · rw [h]
      rcases firstDateMatch text.data with _ | ⟨d, m, y⟩ <;> rfl

/-- Witness for C5 (amended): a text whose first ISO-shaped substring is
valid parses to exactly that substring's datetime. -/
theorem parse_datetime_first_match_witness :
    parse_datetime "on 2025-05-10 18:30, my name is Alice" =
      some (DateTime.mk 2025 5 10 18 30) := by
  have h := (parse_datetime_first_match "on 2025-05-10 18:30, my name is Alice").1
    ("2025-05-10 18:30" : String).data rfl
  rw [h]
  rfl

/-- C7 (amended): for a create-reservation state the composer checks name,
datetime, party size in that order (Python truthiness: a null or empty name
and a null or zero party size count as missing) and emits one clarifying
question per missing field with action `clarify`; with only the party size
missing the answer is exactly the how-many-people phrase, with nothing
missing it is the created phrase with no actions, and with name and party
size both missing the name question precedes the people question. -/
theorem respond_create_questions (s : CallState)
    (hintent : s.intent = some Intent.create_reservation) :
    (∀ e n d, s.entities = some e → e.name = some n → n ≠ "" →
       e.datetime = some d → e.people = none →
       (respond s).final_answer = some (AgentResponse.mk
         (promptsFor (langOrEn s.language)).missing_people ["clarify"]
         (langOrEn s.language))) ∧
    (∀ e n d p, s.entities = some e → e.name = some n → n ≠ "" →
       e.datetime = some d → e.people = some p → p ≠ 0 →
       (respond s).final_answer = some (AgentResponse.mk
         (promptsFor (langOrEn s.language)).created []
         (langOrEn s.language))) ∧
    (∀ e d, s.entities = some e → truthyStr e.name = false →
       e.datetime = some d → e.people = none →
       (respond s).final_answer = some (AgentResponse.mk
         ((promptsFor (langOrEn s.language)).missing_name ++ " " ++
          (promptsFor (langOrEn s.language)).missing_people) ["clarify"]
         (langOrEn s.language))) := by
  refine ⟨?_, ?_, ?_⟩
  · intro e n d hE hn hnne hd hp
    simp [respond, hintent, hE, missingFields, entName, entDatetime,
      entPeople, truthyStr, truthyNat, hn, hd, hp, hnne, joinWith]
  · intro e n d p hE hn hnne hd hp hpne
    simp [respond, hintent, hE, missingFields, entName, entDatetime,
      entPeople, truthyStr, truthyNat, hn, hd, hp, hnne, hpne, joinWith]
  · intro e d hE hname hd hp
    simp [respond, hintent, hE, missingFields, entName, entDatetime,
      entPeople, truthyNat, hname, hd, hp, joinWith]

/-- Witness for C7 (amended): name "Alice" and a datetime present, party
size missing: the reply is exactly the English how-many-people question with
action `clarify`. -/
theorem respond_create_questions_witness :
    (respond aliceNoPeopleState).final_answer =
      some (AgentResponse.mk "How many people will be attending?" ["clarify"]
        "en") := by
  have h := (respond_create_questions aliceNoPeopleState rfl).1
    (ReservationRequest.mk (some "Alice") (some (DateTime.mk 2025 5 10 18 30))
      none none) "Alice" (DateTime.mk 2025 5 10 18 30) rfl rfl (by decide)
    rfl rfl
  rw [h]
  rfl

/-- Normal form of a successful `_regex_fallback_extract`: whenever the
people extractor did not produce the rejected value `0`, the extraction
succeeds and carries the fallback intent, the truthiness-collapsed entity
object and the detected language. -/
theorem regex_fallback_ok_form (text : String) (lang : Option String)
    (hp : extract_people text ≠ some 0) :
    regex_fallback_extract text lang = Except.ok (IntentExtraction.mk
      (fallback_intent text)
      (if truthyStr (extract_name text) || (parse_datetime text).isSome ||
          truthyNat (extract_people text) ||
          truthyNat (extract_reservation_id text) then
        some (ReservationRequest.mk (extract_name text) (parse_datetime text)
          (extract_people text) (extract_reservation_id text))
      else none)
      (match lang with
       | some l => if l == "" then detect_language text else l
       | none => detect_language text)) := by
  unfold regex_fallback_extract mkReservationRequest
  rcases hpe : extract_people text with _ | p
  · rfl
  · rcases p with _ | p
    · exact absurd hpe hp
    · rfl

/-- C8 (amended): for every successful extraction, the entity object is null
iff every field is falsy in Python's sense — the name null or empty, the
datetime null, the party size null and the reservation id null or zero (so a
resolved but zero reservation id still collapses the object); and a non-null
entity object carries exactly the four extractor outputs. -/
theorem regex_entities_collapse (text : String) (lang : Option String)
    (ex : IntentExtraction)
    (hok : regex_fallback_extract text lang = Except.ok ex) :
    (ex.entities = none ↔
      truthyStr (extract_name text) = false ∧ parse_datetime text = none ∧
      extract_people text = none ∧
      truthyNat (extract_reservation_id text) = false) ∧
    (∀ e, ex.entities = some e →
      e = ReservationRequest.mk (extract_name text) (parse_datetime text)
        (extract_people text) (extract_reservation_id text)) := by
  have hp : extract_people text ≠ some 0 := by
    intro h0
    unfold regex_fallback_extract mkReservationRequest at hok
    rw [h0] at hok
    simp at hok
  rw [regex_fallback_ok_form text lang hp] at hok
  simp only [Except.ok.injEq] at hok
  subst hok
  constructor
  · rcases hcond : (truthyStr (extract_name text) ||
        (parse_datetime text).isSome || truthyNat (extract_people text) ||
        truthyNat (extract_reservation_id text)) with _ | _
    · simp only [hcond, if_false]
      simp only [Bool.or_eq_false_iff] at hcond
      obtain ⟨⟨⟨hn, hdt⟩, hpe⟩, hr⟩ := hcond
      have hdt' : parse_datetime text = none := by
        rcases hdtm : parse_datetime text with _ | v
        · rfl
        · rw [hdtm] at hdt
          simp at hdt
      have hpe' : extract_people text = none := by
        rcases hpm : extract_people text with _ | k
        · rfl
        · rw [hpm] at hpe
          rcases k with _ | k
          · exact absurd hpm hp
          · simp [truthyNat] at hpe
      simp [hn, hdt', hpe', hr]
    · simp only [hcond, if_true]
      constructor
      · intro h
        exact absurd h (by simp)
      · intro ⟨hn, hdt, hpe, hr⟩
        rw [hn, hdt, hpe, hr] at hcond
        simp [truthyNat] at hcond
  · intro e he
    rcases hcond : (truthyStr (extract_name text) ||
        (parse_datetime text).isSome || truthyNat (extract_people text) ||
        truthyNat (extract_reservation_id text)) with _ | _
    · rw [hcond] at he
      simp at he
    · rw [hcond] at he
      simp only [if_true] at he
      exact (Option.some_injective _ he).symm

/-- Witness for C8 (amended): on "book for 3 people" only the party size
resolves, so a non-null entity object carrying exactly it is returned. -/
theorem regex_entities_collapse_witness :
    regex_fallback_extract "book for 3 people" none =
      Except.ok (IntentExtraction.mk Intent.create_reservation
        (some (ReservationRequest.mk none none (some 3) none)) "en") ∧
    (IntentExtraction.mk Intent.create_reservation
        (some (ReservationRequest.mk none none (some 3) none)) "en").entities ≠
      none := by
  refine ⟨rfl, ?_⟩
  have h := (regex_entities_collapse "book for 3 people" none
    (IntentExtraction.mk Intent.create_reservation
      (some (ReservationRequest.mk none none (some 3) none)) "en") rfl).1
  intro hnone
  have := h.mp hnone
  exact absurd this.2.2.1 (by decide)

/-- The CRM dispatcher only ever touches `tool_results`; history is
untouched. -/
theorem handle_crm_tools_history (A : CrmAdapter) (s : CallState) :
    (handle_crm_tools A s).history = s.history := by
  unfold handle_crm_tools handle_crm_tools_log
  dsimp only
  repeat' split
  all_goals rfl

/-- The menu dispatcher only appends a tool result; history is untouched. -/
theorem handle_menu_tools_history (menu : String → String → List MenuItem)
    (s : CallState) : (handle_menu_tools menu s).history = s.history := rfl

/-- The composer only sets `final_answer`; history is untouched. -/
theorem respond_history (s : CallState) :
    (respond s).history = s.history := rfl

/-- Tool dispatch never changes history. -/
theorem dispatch_tools_history (C : Collaborators) (i : Intent)
    (s : CallState) : (dispatch_tools C i s).history = s.history := by
  unfold dispatch_tools
  split
  · exact handle_crm_tools_history C.crm s
  · split
    · rfl
    · rfl

/-- `answer_text` only reads `final_answer`, so overwriting history does not
change it. -/
theorem answer_text_set_history (s : CallState) (h : List HistoryMessage) :
    answer_text {s with history := h} = answer_text s := rfl

/-- One driver iteration appends exactly one assistant entry, carrying the
composed answer, to the history. -/
theorem step_turn_history (C : Collaborators) (s : CallState)
    (m : HistoryMessage) :
    (step_turn C s m).history =
      s.history ++ [⟨"assistant", answer_text (step_turn C s m)⟩] := by
  conv_lhs => simp only [step_turn]
  conv_lhs => dsimp only
  rw [respond_history, dispatch_tools_history]
  rfl

/-- One driver iteration preserves the user-role entries of the history. -/
theorem step_turn_user_messages (C : Collaborators) (s : CallState)
    (m : HistoryMessage) :
    user_messages (step_turn C s m).history = user_messages s.history := by
  rw [step_turn_history]
  simp [user_messages, List.filter_append]

/-- The driver's loop preserves the user-role entries of the history. -/
theorem loop_turns_user_messages (C : Collaborators)
    (msgs : List HistoryMessage) : ∀ s : CallState,
    user_messages (loop_turns C s msgs).history = user_messages s.history := by
  induction msgs with
  | nil => intro s; rfl
  | cons m rest ih =>
    intro s
    unfold loop_turns
    dsimp only
    split
    · rw [ih, step_turn_user_messages]
    · rw [step_turn_user_messages]

/-- Folding the pending utterance preserves pairwise-distinct user texts:
the guard appends only texts not yet present among the user entries. -/
theorem ensure_history_pairwise (s : CallState)
    (h : (user_messages s.history).Pairwise (fun a b => a.text ≠ b.text)) :
    (user_messages (ensure_history s).history).Pairwise
      (fun a b => a.text ≠ b.text) := by
  unfold ensure_history
  rcases hlt : s.last_user_text with _ | t
  · exact h
  · dsimp only
    split
    · next hcond =>
        dsimp only
        simp only [Bool.and_eq_true, Bool.not_eq_true'] at hcond
        obtain ⟨hne, hany⟩ := hcond
        have husers : user_messages (s.history ++ [⟨"user", t⟩]) =
            user_messages s.history ++ [⟨"user", t⟩] := by
          simp [user_messages, List.filter_append]
        rw [husers]
        refine List.pairwise_append.mpr ⟨h, List.pairwise_singleton _ _, ?_⟩
        intro a ha b hb
        rw [List.mem_singleton] at hb
        subst hb
        have ha' := List.mem_filter.mp ha
        rw [List.any_eq_false] at hany
        have hna := hany a ha'.1
        simp only [Bool.and_eq_true, beq_iff_eq, not_and] at hna
        intro hEq
        exact hna hEq (by simpa using ha'.2)
    · exact h

/-- C10: the driver's duplicate guard is global, not positional — a pending
utterance equal to any user-role entry anywhere in history is silently
dropped — and consequently the driver preserves the invariant that no two
user-role history entries carry the same text. -/
theorem duplicate_guard_global_invariant :
    (∀ (s : CallState) (t : String), s.last_user_text = some t →
       (∃ m ∈ s.history, m.role = "user" ∧ m.text = t) →
       ensure_history s = s) ∧
    (∀ (C : Collaborators) (k : Nat) (s : CallState),
       (user_messages s.history).Pairwise (fun a b => a.text ≠ b.text) →
       (user_messages (run_agent C k s).history).Pairwise
         (fun a b => a.text ≠ b.text)) := by
  constructor
  · intro s t hlt hdup
    obtain ⟨m, hm, hrole, htext⟩ := hdup
    have hany : s.history.any (fun m => m.text == t && m.role == "user") = true := by
      rw [List.any_eq_true]
      exact ⟨m, hm, by simp [htext, hrole]⟩
    simp [ensure_history, hlt, hany]
  · intro C k s hpw
    unfold run_agent
    dsimp only
    split
    · exact ensure_history_pairwise s hpw
    · rw [loop_turns_user_messages]
      exact ensure_history_pairwise s hpw

/-- Witness for C10: the pending repeat "hi" of an old user entry is
dropped, and pairwise-distinct user texts survive a driver run. -/
theorem duplicate_guard_global_invariant_witness :
    ensure_history dupOldState = dupOldState ∧
    (user_messages
      (run_agent clarifyingCollab 2 fiveUserState).history).Pairwise
      (fun a b => a.text ≠ b.text) := by
  constructor
  · exact duplicate_guard_global_invariant.1 dupOldState "hi" rfl
      ⟨⟨"user", "hi"⟩, by decide, rfl, rfl⟩
  · exact duplicate_guard_global_invariant.2 clarifyingCollab 2 fiveUserState
      (by decide)

/-- C6: with a turn budget of 2 and five queued user utterances, when both
composed replies carry the `clarify` action the driver processes exactly the
last two utterances in chronological order and appends exactly two
assistant entries; and when the first composed reply does not carry
`clarify`, the loop stops early after exactly one assistant entry. -/
theorem run_agent_turn_budget (C : Collaborators) :
    (∀ (s : CallState) (m₁ m₂ m₃ m₄ m₅ : HistoryMessage),
       ensure_history s = s →
       user_messages s.history = [m₁, m₂, m₃, m₄, m₅] →
       "clarify" ∈ answer_actions (step_turn C s m₄) →
       "clarify" ∈ answer_actions (step_turn C (step_turn C s m₄) m₅) →
       run_agent C 2 s = step_turn C (step_turn C s m₄) m₅ ∧
       (step_turn C (step_turn C s m₄) m₅).history =
         s.history ++
           [⟨"assistant", answer_text (step_turn C s m₄)⟩,
            ⟨"assistant", answer_text (step_turn C (step_turn C s m₄) m₅)⟩]) ∧
    (∀ (s : CallState) (m₁ m₂ m₃ m₄ m₅ : HistoryMessage),
       ensure_history s = s →
       user_messages s.history = [m₁, m₂, m₃, m₄, m₅] →
       "clarify" ∉ answer_actions (step_turn C s m₄) →
       run_agent C 2 s = step_turn C s m₄ ∧
       (step_turn C s m₄).history =
         s.history ++ [⟨"assistant", answer_text (step_turn C s m₄)⟩]) := by
  constructor
  · intro s m1 m2 m3 m4 m5 hens hu h1 h2
    have hrun : run_agent C 2 s = loop_turns C s [m4, m5] := by
      unfold run_agent
      rw [hens]
      dsimp only
      rw [hu]
      rfl
    constructor
    · rw [hrun]
      unfold loop_turns
      dsimp only
      rw [if_pos h1]
      unfold loop_turns
      dsimp only
      rw [if_pos h2]
      rfl
    · rw [step_turn_history C (step_turn C s m4) m5, step_turn_history C s m4]
      simp
  · intro s m1 m2 m3 m4 m5 hens hu h1
    have hrun : run_agent C 2 s = loop_turns C s [m4, m5] := by
      unfold run_agent
      rw [hens]
      dsimp only
      rw [hu]
      rfl
    constructor
    · rw [hrun]
      unfold loop_turns
      dsimp only
      rw [if_neg h1]
    · exact step_turn_history C s m4

/-- Witness for C6: the clarifying stub classifier never resolves the
conversation, so a five-utterance history with budget 2 gains exactly two
assistant entries. -/
theorem run_agent_turn_budget_witness :
    (run_agent clarifyingCollab 2 fiveUserState).history.length =
      fiveUserState.history.length + 2 := by
  have h := (run_agent_turn_budget clarifyingCollab).1 fiveUserState
    ⟨"user", "u1"⟩ ⟨"user", "u2"⟩ ⟨"user", "u3"⟩ ⟨"user", "u4"⟩
    ⟨"user", "u5"⟩ rfl rfl (by decide) (by decide)
  rw [h.1, h.2]
  simp
